import Mathlib

/-!
Verification of the WSL environment discovery subsystem of
`vscode-python-environments` (files `src/managers/wsl/types.ts`,
`src/managers/wsl/wslPersistence.ts`, `src/managers/wsl/wslEnvironmentDiscovery.ts`).

The TypeScript code is shallowly embedded as pure Lean functions:
- JSON objects become ordered association lists (insertion order is what a JS
  object / `Map` iterates in).
- The filesystem interaction of `loadData` is modelled by a `FileContent`
  outcome (file missing, an I/O error at a given stage, malformed JSON, or a
  parsed document) together with an explicit trace of the filesystem
  operations the load performs.
- Exceptions thrown by external collaborators (`api.createPythonEnvironmentItem`,
  `vscode.Uri.parse`) are modelled by a caller-supplied failure predicate;
  a thrown exception caught by the code corresponds to the `none` branch.
- `vscode.Uri` is external to the repository; it is modelled as a wrapper
  carrying the string handed to `Uri.parse`, which is all the code relies on.
-/

namespace Wsl

/-- Kind of a persisted environment, `type: 'venv' | 'system' | 'other'`
in `types.ts`. -/
inductive EnvType where
  | venv
  | system
  | other
deriving DecidableEq, Repr

/-- `WslEnvironmentInfo` from `types.ts`: the persisted record about one
discovered interpreter. Optional fields become `Option`. -/
structure WslEnvironmentInfo where
  distro : String
  wslPath : String
  venvPath : String
  workspacePath : Option String
  name : String
  type : EnvType
  createdAt : String
  lastUsed : String
  pythonVersion : Option String
  sysPrefix : String
deriving DecidableEq, Repr

/-- `WslPersistenceData` from `types.ts`: the whole-file shape. The two JSON
objects become ordered association lists. -/
structure WslPersistenceData where
  version : String
  environments : List (String × WslEnvironmentInfo)
  workspaceMapping : List (String × List String)
deriving DecidableEq, Repr

/-- `CURRENT_VERSION = '1.0'` in `wslPersistence.ts`. -/
def CURRENT_VERSION : String := "1.0"

/-- `createEmptyData()` in `wslPersistence.ts`. -/
def createEmptyData : WslPersistenceData :=
  { version := CURRENT_VERSION, environments := [], workspaceMapping := [] }

/-- A single filesystem operation performed by `loadData`
(`fs.ensureDir`, `fs.pathExists`, `fs.readFile`; `writeFile` is included so
that its absence from every trace is expressible). -/
inductive FsOp where
  | ensureDir (dir : String)
  | pathExists (p : String)
  | readFile (p : String)
  | writeFile (p : String)
deriving DecidableEq, Repr

/-- Outcome of the filesystem for one load attempt: the persistence file is
missing, `fs.ensureDir` throws, `fs.readFile` throws, the content fails
`JSON.parse`, or it parses to a `WslPersistenceData` document. -/
inductive FileContent where
  | missing
  | dirError
  | readError
  | malformed
  | valid (d : WslPersistenceData)
deriving DecidableEq, Repr

/-- Result of one call to `loadData`: the returned document, the cache
field after the call, whether the load algorithm ran (cache miss), and the
trace of filesystem operations performed. -/
structure LoadResult where
  data : WslPersistenceData
  newCache : Option WslPersistenceData
  didLoad : Bool
  ops : List FsOp
deriving DecidableEq, Repr

/-- `loadData()` in `wslPersistence.ts` as a pure transition: given the store
path, the `path.dirname` function, the current `cache` field and the
filesystem outcome, produce the returned document, the new cache and the
operation trace. A cached document is returned at once; otherwise the code
ensures the directory, checks existence, reads and parses the file, discards
a version-mismatched document, and caches only a version-matched parse.
Every error branch is caught and yields `createEmptyData`. -/
def loadData (filePath : String) (dirOf : String → String)
    (cache : Option WslPersistenceData) (file : FileContent) : LoadResult :=
  match cache with
  | some d => { data := d, newCache := some d, didLoad := false, ops := [] }
  | none =>
    match file with
    | FileContent.dirError =>
      { data := createEmptyData, newCache := none, didLoad := true,
        ops := [FsOp.ensureDir (dirOf filePath)] }
    | FileContent.missing =>
      { data := createEmptyData, newCache := none, didLoad := true,
        ops := [FsOp.ensureDir (dirOf filePath), FsOp.pathExists filePath] }
    | FileContent.readError =>
      { data := createEmptyData, newCache := none, didLoad := true,
        ops := [FsOp.ensureDir (dirOf filePath), FsOp.pathExists filePath,
                FsOp.readFile filePath] }
    | FileContent.malformed =>
      { data := createEmptyData, newCache := none, didLoad := true,
        ops := [FsOp.ensureDir (dirOf filePath), FsOp.pathExists filePath,
                FsOp.readFile filePath] }
    | FileContent.valid d =>
      if d.version = CURRENT_VERSION then
        { data := d, newCache := some d, didLoad := true,
          ops := [FsOp.ensureDir (dirOf filePath), FsOp.pathExists filePath,
                  FsOp.readFile filePath] }
      else
        { data := createEmptyData, newCache := none, didLoad := true,
          ops := [FsOp.ensureDir (dirOf filePath), FsOp.pathExists filePath,
                  FsOp.readFile filePath] }

/-- `clearCache()` in `wslPersistence.ts`: drop the cached document. -/
def clearCache (_cache : Option WslPersistenceData) : Option WslPersistenceData :=
  none

/-- `normalizePath()` in `wslPersistence.ts`. `path.normalize` is the Node
runtime's platform-dependent canonicalisation, passed in as `norm`; on
Windows the result is additionally lowercased. -/
def normalizePath (norm : String → String) (isWin32 : Bool) (filePath : String) : String :=
  let normalized := norm filePath
  if isWin32 then normalized.toLower else normalized

/-- Body of `getWorkspaceEnvironments()` in `wslPersistence.ts` applied to a
loaded document: normalize the path, fetch its mapping entry (`|| []`), then
loop over the listed keys pushing each record that resolves. -/
def getWorkspaceEnvironmentsData (norm : String → String) (isWin32 : Bool)
    (data : WslPersistenceData) (workspacePath : String) : List WslEnvironmentInfo :=
  let normalizedPath := normalizePath norm isWin32 workspacePath
  let envIds := (data.workspaceMapping.lookup normalizedPath).getD []
  envIds.foldl (fun environments envId =>
    match data.environments.lookup envId with
    | some env => environments ++ [env]
    | none => environments) []

/-- `getAllEnvironments()` in `wslPersistence.ts`: load, then return the
entries of the `environments` object. -/
def getAllEnvironments (filePath : String) (dirOf : String → String)
    (cache : Option WslPersistenceData) (file : FileContent) :
    List (String × WslEnvironmentInfo) :=
  (loadData filePath dirOf cache file).data.environments

/-- `getWorkspaceEnvironments()` in `wslPersistence.ts`: load, then resolve
the workspace mapping entry. -/
def getWorkspaceEnvironments (norm : String → String) (isWin32 : Bool)
    (filePath : String) (dirOf : String → String)
    (cache : Option WslPersistenceData) (file : FileContent)
    (workspacePath : String) : List WslEnvironmentInfo :=
  getWorkspaceEnvironmentsData norm isWin32 (loadData filePath dirOf cache file).data
    workspacePath

/-- `getEnvironment()` in `wslPersistence.ts`: load, then index the
`environments` object (`undefined` becomes `none`). -/
def getEnvironment (filePath : String) (dirOf : String → String)
    (cache : Option WslPersistenceData) (file : FileContent)
    (envId : String) : Option WslEnvironmentInfo :=
  (loadData filePath dirOf cache file).data.environments.lookup envId

/-- `hasEnvironment()` in `wslPersistence.ts`: load, then test
`envId in data.environments` (key membership). -/
def hasEnvironment (filePath : String) (dirOf : String → String)
    (cache : Option WslPersistenceData) (file : FileContent)
    (envId : String) : Bool :=
  (loadData filePath dirOf cache file).data.environments.any
    (fun e => e.1 == envId)

/-- Model of `vscode.Uri`, an external collaborator: the code only ever
builds one with `Uri.parse(envId)` and hands it on, so it is modelled as a
wrapper carrying the parsed source string. -/
structure Uri where
  raw : String
deriving DecidableEq, Repr

/-- `Uri.parse` of the vscode API, on the model above. -/
def Uri.parse (s : String) : Uri := { raw := s }

/-- `PythonCommandRunConfiguration` of the host API: an executable plus
argument list. -/
structure PythonCommandRunConfiguration where
  executable : String
  args : List String
deriving DecidableEq, Repr

/-- The `execInfo` value built by `buildExecutionInfo` in
`wslEnvironmentDiscovery.ts`. The shell activation `Map` becomes an ordered
association list (JS `Map` preserves insertion order). -/
structure ExecInfo where
  run : PythonCommandRunConfiguration
  activation : Option (List PythonCommandRunConfiguration)
  shellActivation : Option (List (String × List PythonCommandRunConfiguration))
  deactivation : Option (List PythonCommandRunConfiguration)
deriving DecidableEq, Repr

/-- The `group` literal built in `convertToPythonEnvironment`. -/
structure GroupInfo where
  name : String
  description : String
  tooltip : String
deriving DecidableEq, Repr

/-- `PythonEnvironmentInfo` literal built in `convertToPythonEnvironment`. -/
structure PythonEnvironmentInfo where
  name : String
  displayName : String
  shortDisplayName : String
  displayPath : String
  version : String
  environmentPath : Uri
  description : String
  tooltip : String
  execInfo : ExecInfo
  sysPrefix : String
  group : GroupInfo
deriving DecidableEq, Repr

/-- The host object returned by `api.createPythonEnvironmentItem`; the model
keeps the info it was created from, which is all the code observes. -/
structure PythonEnvironment where
  info : PythonEnvironmentInfo
deriving DecidableEq, Repr

/-- String printed for an `EnvType` by a JS template literal. -/
def EnvType.toDisplay : EnvType → String
  | EnvType.venv => "venv"
  | EnvType.system => "system"
  | EnvType.other => "other"

/-- `buildActivationCommands()` in `wslEnvironmentDiscovery.ts`. -/
def buildActivationCommands (info : WslEnvironmentInfo) :
    List PythonCommandRunConfiguration :=
  let activateScript := info.venvPath ++ "/bin/activate"
  [ { executable := "wsl.exe",
      args := ["-d", info.distro, "--", "bash", "-c",
               "source \"" ++ activateScript ++ "\""] } ]

/-- `buildShellActivation()` in `wslEnvironmentDiscovery.ts`: the per-shell
activation map, with entries inserted for bash, zsh, fish, pwsh and the
unknown-shell fallback, in that order. -/
def buildShellActivation (info : WslEnvironmentInfo) :
    List (String × List PythonCommandRunConfiguration) :=
  let activateScript := info.venvPath ++ "/bin/activate"
  [ ("bash", [ { executable := "source", args := [activateScript] } ]),
    ("zsh", [ { executable := "source", args := [activateScript] } ]),
    ("fish", [ { executable := "source",
                 args := [info.venvPath ++ "/bin/activate.fish"] } ]),
    ("pwsh", [ { executable := ".",
                 args := [info.venvPath ++ "/bin/Activate.ps1"] } ]),
    ("unknown", [ { executable := "source", args := [activateScript] } ]) ]

/-- `buildExecutionInfo()` in `wslEnvironmentDiscovery.ts`: the run command
always launches `wsl.exe` selecting the distro and interpreter; activation,
shell activation and deactivation are built only for `venv` records and are
`undefined` otherwise. -/
def buildExecutionInfo (info : WslEnvironmentInfo) : ExecInfo :=
  { run := { executable := "wsl.exe",
             args := ["-d", info.distro, "--", info.wslPath] },
    activation :=
      if info.type = EnvType.venv then some (buildActivationCommands info) else none,
    shellActivation :=
      if info.type = EnvType.venv then some (buildShellActivation info) else none,
    deactivation :=
      if info.type = EnvType.venv then some [ { executable := "deactivate", args := [] } ]
      else none }

/-- `generateEnvId()` in `wslEnvironmentDiscovery.ts`:
the identity key, format `wsl:distro:path`. -/
def generateEnvId (info : WslEnvironmentInfo) : String :=
  "wsl:" ++ info.distro ++ ":" ++ info.wslPath

/-- The `PythonEnvironmentInfo` literal built inside
`convertToPythonEnvironment()` in `wslEnvironmentDiscovery.ts`. -/
def envInfoOf (info : WslEnvironmentInfo) (envId : String) : PythonEnvironmentInfo :=
  let execInfo := buildExecutionInfo info
  { name := info.name,
      displayName := info.name ++ " (WSL: " ++ info.distro ++ ")",
      shortDisplayName := info.name,
      displayPath := info.wslPath,
      version := info.pythonVersion.getD "Unknown",
      environmentPath := Uri.parse envId,
      description := "WSL " ++ info.type.toDisplay ++ " environment in " ++ info.distro,
      tooltip := "WSL Path: " ++ info.wslPath ++ "\nDistro: " ++ info.distro
                 ++ "\nWorkspace: " ++ info.workspacePath.getD "N/A",
      execInfo := execInfo,
      sysPrefix := info.sysPrefix,
      group := { name := "WSL",
                 description := "Windows Subsystem for Linux (" ++ info.distro ++ ")",
                 tooltip := "Python environments running in WSL" } }

/-- `convertToPythonEnvironment()` in `wslEnvironmentDiscovery.ts`. The body
builds the `PythonEnvironmentInfo` literal (`envInfoOf`) and calls
`api.createPythonEnvironmentItem` inside a try/catch that turns any thrown
error into `undefined`; `createFails` models which constructions the external
api (or `Uri.parse`) throws on, and the `none` branch is that catch. -/
def convertToPythonEnvironment (createFails : PythonEnvironmentInfo → Bool)
    (info : WslEnvironmentInfo) (envId : String) : Option PythonEnvironment :=
  let envInfo := envInfoOf info envId
  if createFails envInfo then none else some { info := envInfo }

/-- `discoverEnvironments()` in `wslEnvironmentDiscovery.ts`: the store call
`persistence.getAllEnvironments()` sits inside a try/catch whose catch
returns `[]`; `storeResult` is its outcome. On success the loop converts
each entry, pushing the converted environment when conversion yields one and
skipping it otherwise. -/
def discoverEnvironments (createFails : PythonEnvironmentInfo → Bool)
    (storeResult : Except String (List (String × WslEnvironmentInfo))) :
    List PythonEnvironment :=
  match storeResult with
  | Except.error _ => []
  | Except.ok wslEnvs =>
    wslEnvs.foldl (fun pythonEnvs p =>
      match convertToPythonEnvironment createFails p.2 p.1 with
      | some env => pythonEnvs ++ [env]
      | none => pythonEnvs) []

/-- The façade `getWorkspaceEnvironments()` in `wslEnvironmentDiscovery.ts`:
same pattern over the store's workspace list, recomputing each identity key
with `generateEnvId`. -/
def facadeWorkspaceEnvironments (createFails : PythonEnvironmentInfo → Bool)
    (storeResult : Except String (List WslEnvironmentInfo)) :
    List PythonEnvironment :=
  match storeResult with
  | Except.error _ => []
  | Except.ok wslEnvs =>
    wslEnvs.foldl (fun pythonEnvs info =>
      match convertToPythonEnvironment createFails info (generateEnvId info) with
      | some env => pythonEnvs ++ [env]
      | none => pythonEnvs) []

/-- Does a filesystem operation mutate a file (as opposed to querying the
filesystem or creating a directory)? Only `writeFile` does. -/
def FsOp.isFileWrite : FsOp → Bool
  | FsOp.writeFile _ => true
  | _ => false

/-- Concrete `venv` record used to instantiate the theorems: the
`.venv` environment of the worked example in the specification. -/
def sampleVenvRecord : WslEnvironmentInfo :=
  { distro := "Ubuntu-22.04", wslPath := "/mnt/c/proj/.venv/bin/python",
    venvPath := "/mnt/c/proj/.venv", workspacePath := some "c:\\proj",
    name := ".venv", type := EnvType.venv, createdAt := "2024-01-01T00:00:00Z",
    lastUsed := "2024-01-02T00:00:00Z", pythonVersion := some "3.11.0",
    sysPrefix := "/mnt/c/proj/.venv" }

/-- Concrete `system` record used to instantiate the theorems. -/
def sampleSystemRecord : WslEnvironmentInfo :=
  { distro := "Ubuntu-22.04", wslPath := "/usr/bin/python3",
    venvPath := "/usr", workspacePath := none,
    name := "python3", type := EnvType.system, createdAt := "2024-01-01T00:00:00Z",
    lastUsed := "2024-01-02T00:00:00Z", pythonVersion := some "3.10.0",
    sysPrefix := "/usr" }

/-- Concrete record with the distribution and interpreter path of the
identity-key example in the specification. -/
def sampleKeyRecord : WslEnvironmentInfo :=
  { distro := "Ubuntu-22.04", wslPath := "/mnt/c/w/.venv/bin/python",
    venvPath := "/mnt/c/w/.venv", workspacePath := some "c:\\w",
    name := ".venv", type := EnvType.venv, createdAt := "2024-01-01T00:00:00Z",
    lastUsed := "2024-01-02T00:00:00Z", pythonVersion := some "3.11.0",
    sysPrefix := "/mnt/c/w/.venv" }

/-- The push loop of `getWorkspaceEnvironmentsData` computes `filterMap`
of record lookup, for any accumulator. -/
theorem getWorkspaceEnvironmentsData_loop (data : WslPersistenceData)
    (ids : List String) (acc : List WslEnvironmentInfo) :
    ids.foldl (fun environments envId =>
        match data.environments.lookup envId with
        | some env => environments ++ [env]
        | none => environments) acc
      = acc ++ ids.filterMap (fun envId => data.environments.lookup envId) := by
  induction ids generalizing acc with
  | nil => simp
  | cons x xs ih =>
    cases h : data.environments.lookup x with
    | none => simp [h, ih]
    | some env => simp [h, ih]

/-- The store resolution of a workspace mapping entry is the `filterMap` of
record lookup over the listed keys. -/
theorem getWorkspaceEnvironmentsData_eq_filterMap (norm : String → String)
    (isWin32 : Bool) (data : WslPersistenceData) (workspacePath : String) :
    getWorkspaceEnvironmentsData norm isWin32 data workspacePath
      = ((data.workspaceMapping.lookup
            (normalizePath norm isWin32 workspacePath)).getD []).filterMap
          (fun envId => data.environments.lookup envId) := by
  show (((data.workspaceMapping.lookup
      (normalizePath norm isWin32 workspacePath)).getD []).foldl _ [])
    = _
  exact (getWorkspaceEnvironmentsData_loop data _ []).trans (List.nil_append _)

/-- The push loop of `discoverEnvironments` computes `filterMap` of
conversion, for any accumulator. -/
theorem discoverEnvironments_loop (createFails : PythonEnvironmentInfo → Bool)
    (envs : List (String × WslEnvironmentInfo)) (acc : List PythonEnvironment) :
    envs.foldl (fun pythonEnvs p =>
        match convertToPythonEnvironment createFails p.2 p.1 with
        | some env => pythonEnvs ++ [env]
        | none => pythonEnvs) acc
      = acc ++ envs.filterMap
          (fun p => convertToPythonEnvironment createFails p.2 p.1) := by
  induction envs generalizing acc with
  | nil => simp
  | cons x xs ih =>
    cases h : convertToPythonEnvironment createFails x.2 x.1 with
    | none => simp [h, ih]
    | some env => simp [h, ih]

/-- On a successful store result, discovery is the `filterMap` of conversion
over the entries. -/
theorem discoverEnvironments_ok_eq_filterMap
    (createFails : PythonEnvironmentInfo → Bool)
    (envs : List (String × WslEnvironmentInfo)) :
    discoverEnvironments createFails (Except.ok envs)
      = envs.filterMap
          (fun p => convertToPythonEnvironment createFails p.2 p.1) := by
  show (envs.foldl _ []) = _
  exact (discoverEnvironments_loop createFails envs []).trans (List.nil_append _)

/-- A lookup on an association list succeeds exactly when some entry has the
looked-up key. -/
theorem lookup_isSome_eq_any {β : Type} (l : List (String × β)) (k : String) :
    (l.lookup k).isSome = l.any (fun e => e.1 == k) := by
  induction l with
  | nil => rfl
  | cons x xs ih =>
    rcases x with ⟨k1, b⟩
    by_cases h : k = k1
    · simp [List.lookup_cons, h]
    · have h1 : (k == k1) = false := beq_false_of_ne h
      have h2 : (k1 == k) = false := beq_false_of_ne (Ne.symm h)
      simp [List.lookup_cons, h1, h2, ih]

/-- A successful lookup returns a binding present in the list. -/
theorem mem_of_lookup_eq_some {β : Type} {l : List (String × β)} {k : String}
    {b : β} (h : l.lookup k = some b) : (k, b) ∈ l := by
  induction l with
  | nil => simp [List.lookup] at h
  | cons x xs ih =>
    rcases x with ⟨k1, b1⟩
    by_cases hk : k = k1
    · subst hk
      simp [List.lookup_cons] at h
      simp [h]
    · have h1 : (k == k1) = false := beq_false_of_ne hk
      simp [List.lookup_cons, h1] at h
      exact List.mem_cons_of_mem _ (ih h)

/-- C1: for a `venv` record the execution configuration has the
`wsl.exe -d distro -- path` run command, a non-absent activation list, a
shell-activation map with exactly the keys bash, zsh, fish, pwsh, unknown,
where bash, zsh and unknown source `venvPath/bin/activate`, fish sources
`venvPath/bin/activate.fish`, pwsh dot-sources `venvPath/bin/Activate.ps1`,
each of the five lists non-empty, and deactivation `deactivate` with no
arguments; for a record whose kind is not `venv`, activation, shell
activation and deactivation are all absent while the run command is still
present. -/
theorem claim1_execution_configuration (info : WslEnvironmentInfo) :
    (buildExecutionInfo info).run
        = { executable := "wsl.exe", args := ["-d", info.distro, "--", info.wslPath] } ∧
    (info.type = EnvType.venv →
      (buildExecutionInfo info).activation.isSome = true ∧
      (buildExecutionInfo info).shellActivation = some (buildShellActivation info) ∧
      (buildShellActivation info).map Prod.fst = ["bash", "zsh", "fish", "pwsh", "unknown"] ∧
      (∀ kv ∈ buildShellActivation info, kv.2 ≠ []) ∧
      (buildShellActivation info).lookup "bash"
        = some [ { executable := "source", args := [info.venvPath ++ "/bin/activate"] } ] ∧
      (buildShellActivation info).lookup "zsh"
        = some [ { executable := "source", args := [info.venvPath ++ "/bin/activate"] } ] ∧
      (buildShellActivation info).lookup "unknown"
        = some [ { executable := "source", args := [info.venvPath ++ "/bin/activate"] } ] ∧
      (buildShellActivation info).lookup "fish"
        = some [ { executable := "source", args := [info.venvPath ++ "/bin/activate.fish"] } ] ∧
      (buildShellActivation info).lookup "pwsh"
        = some [ { executable := ".", args := [info.venvPath ++ "/bin/Activate.ps1"] } ] ∧
      (buildExecutionInfo info).deactivation
        = some [ { executable := "deactivate", args := [] } ]) ∧
    (info.type ≠ EnvType.venv →
      (buildExecutionInfo info).activation = none ∧
      (buildExecutionInfo info).shellActivation = none ∧
      (buildExecutionInfo info).deactivation = none) := by
  refine ⟨rfl, fun hv => ?_, fun hnv => ?_⟩
  · refine ⟨?_, ?_, rfl, ?_, rfl, rfl, rfl, rfl, rfl, ?_⟩
    · simp [buildExecutionInfo, hv]
    · simp [buildExecutionInfo, hv]
    · intro kv hkv
      simp [buildShellActivation] at hkv
      rcases hkv with h | h | h | h | h <;> subst h <;> simp
    · simp [buildExecutionInfo, hv]
  · exact ⟨by simp [buildExecutionInfo, hnv], by simp [buildExecutionInfo, hnv],
      by simp [buildExecutionInfo, hnv]⟩

/-- Witness for C1 at the concrete sample records: the venv record gets a
populated configuration, the system record an absent one. -/
theorem claim1_execution_configuration_witness :
    ((buildExecutionInfo sampleVenvRecord).activation.isSome = true ∧
     (buildExecutionInfo sampleVenvRecord).deactivation
        = some [ { executable := "deactivate", args := [] } ] ∧
     (buildShellActivation sampleVenvRecord).map Prod.fst
        = ["bash", "zsh", "fish", "pwsh", "unknown"]) ∧
    ((buildExecutionInfo sampleSystemRecord).activation = none ∧
     (buildExecutionInfo sampleSystemRecord).shellActivation = none ∧
     (buildExecutionInfo sampleSystemRecord).deactivation = none) := by
  have hv := (claim1_execution_configuration sampleVenvRecord).2.1 rfl
  have hs := (claim1_execution_configuration sampleSystemRecord).2.2 (by decide)
  exact ⟨⟨hv.1, hv.2.2.2.2.2.2.2.2.2, hv.2.2.1⟩, hs⟩

/-- C4: the identity key built by the façade is exactly
`wsl: ++ distro ++ : ++ wslPath`, and that exact string is carried, via
`Uri.parse`, as the `environmentPath` resource locator of the descriptor
produced by conversion. -/
theorem claim4_identity_key (info : WslEnvironmentInfo)
    (createFails : PythonEnvironmentInfo → Bool)
    (h : createFails (envInfoOf info (generateEnvId info)) = false) :
    generateEnvId info = "wsl:" ++ info.distro ++ ":" ++ info.wslPath ∧
    convertToPythonEnvironment createFails info (generateEnvId info)
      = some { info := envInfoOf info (generateEnvId info) } ∧
    (envInfoOf info (generateEnvId info)).environmentPath
      = Uri.parse (generateEnvId info) ∧
    (envInfoOf info (generateEnvId info)).environmentPath.raw
      = "wsl:" ++ info.distro ++ ":" ++ info.wslPath := by
  refine ⟨rfl, ?_, rfl, rfl⟩
  simp [convertToPythonEnvironment, h]

/-- Witness for C4 at the distribution and interpreter path of the worked
example: the key is the exact expected string and round-trips into the
descriptor. -/
theorem claim4_identity_key_witness :
    generateEnvId sampleKeyRecord = "wsl:Ubuntu-22.04:/mnt/c/w/.venv/bin/python" ∧
    convertToPythonEnvironment (fun _ => false) sampleKeyRecord
        (generateEnvId sampleKeyRecord)
      = some { info := envInfoOf sampleKeyRecord (generateEnvId sampleKeyRecord) } ∧
    (envInfoOf sampleKeyRecord (generateEnvId sampleKeyRecord)).environmentPath.raw
      = "wsl:Ubuntu-22.04:/mnt/c/w/.venv/bin/python" := by
  have h := claim4_identity_key sampleKeyRecord (fun _ => false) rfl
  exact ⟨by rw [h.1]; rfl, h.2.1, by rw [h.2.2.2]; rfl⟩

/-- C2: loading a parsed file whose version tag is the supported `1.0`
yields a document whose environments mapping has exactly the file entries
(and `getAllEnvironments` returns exactly those pairs); any other version
tag yields the empty document, with no error. -/
theorem claim2_version_gate (filePath : String) (dirOf : String → String)
    (d : WslPersistenceData) :
    (d.version = CURRENT_VERSION →
      (loadData filePath dirOf none (FileContent.valid d)).data = d ∧
      getAllEnvironments filePath dirOf none (FileContent.valid d) = d.environments) ∧
    (d.version ≠ CURRENT_VERSION →
      (loadData filePath dirOf none (FileContent.valid d)).data = createEmptyData ∧
      getAllEnvironments filePath dirOf none (FileContent.valid d) = [] ∧
      (loadData filePath dirOf none (FileContent.valid d)).data.workspaceMapping = []) := by
  constructor
  · intro hv
    constructor
    · simp [loadData, hv]
    · simp [getAllEnvironments, loadData, hv]
  · intro hv
    refine ⟨?_, ?_, ?_⟩
    · simp [loadData, hv]
    · simp [getAllEnvironments, loadData, hv, createEmptyData]
    · simp [loadData, hv, createEmptyData]

/-- Witness for C2: a matching-version file with one record loads as-is, a
version `0.9` file loads as the empty document. -/
theorem claim2_version_gate_witness :
    getAllEnvironments "wsl-environments.json" (fun s => s) none
        (FileContent.valid
          { version := "1.0", environments := [("wsl:a:/p", sampleVenvRecord)],
            workspaceMapping := [] })
      = [("wsl:a:/p", sampleVenvRecord)] ∧
    (loadData "wsl-environments.json" (fun s => s) none
        (FileContent.valid
          { version := "0.9", environments := [("wsl:a:/p", sampleVenvRecord)],
            workspaceMapping := [] })).data
      = createEmptyData := by
  have h1 := (claim2_version_gate "wsl-environments.json" (fun s => s)
    { version := "1.0", environments := [("wsl:a:/p", sampleVenvRecord)],
      workspaceMapping := [] }).1 rfl
  have h2 := (claim2_version_gate "wsl-environments.json" (fun s => s)
    { version := "0.9", environments := [("wsl:a:/p", sampleVenvRecord)],
      workspaceMapping := [] }).2 (by decide)
  exact ⟨h1.2, h2.1⟩

/-- C3: a workspace path whose normalized form is not a key of the
document workspace mapping yields the empty list; otherwise the result is,
in mapping order, exactly the records found under each listed key, keys
with no matching record being silently skipped (`filterMap` of the record
lookup). -/
theorem claim3_workspace_lookup (norm : String → String) (isWin32 : Bool)
    (data : WslPersistenceData) (workspacePath : String) :
    (data.workspaceMapping.lookup (normalizePath norm isWin32 workspacePath) = none →
      getWorkspaceEnvironmentsData norm isWin32 data workspacePath = []) ∧
    (∀ ids, data.workspaceMapping.lookup (normalizePath norm isWin32 workspacePath)
        = some ids →
      getWorkspaceEnvironmentsData norm isWin32 data workspacePath
        = ids.filterMap (fun envId => data.environments.lookup envId)) := by
  constructor
  · intro h
    rw [getWorkspaceEnvironmentsData_eq_filterMap, h]
    rfl
  · intro ids h
    rw [getWorkspaceEnvironmentsData_eq_filterMap, h]
    rfl

/-- Witness for C3 on a concrete document: an unmapped workspace yields
`[]`; a mapped one resolves its keys in order, skipping the dangling key
`wsl:b:/q`. -/
theorem claim3_workspace_lookup_witness :
    getWorkspaceEnvironmentsData (fun s => s) false
        { version := "1.0",
          environments := [("wsl:a:/p", sampleVenvRecord), ("wsl:c:/r", sampleSystemRecord)],
          workspaceMapping := [("/w", ["wsl:a:/p", "wsl:b:/q", "wsl:c:/r"])] }
        "/w"
      = [sampleVenvRecord, sampleSystemRecord] ∧
    getWorkspaceEnvironmentsData (fun s => s) false
        { version := "1.0",
          environments := [("wsl:a:/p", sampleVenvRecord), ("wsl:c:/r", sampleSystemRecord)],
          workspaceMapping := [("/w", ["wsl:a:/p", "wsl:b:/q", "wsl:c:/r"])] }
        "/x"
      = [] := by
  constructor
  · have h := (claim3_workspace_lookup (fun s => s) false
      { version := "1.0",
        environments := [("wsl:a:/p", sampleVenvRecord), ("wsl:c:/r", sampleSystemRecord)],
        workspaceMapping := [("/w", ["wsl:a:/p", "wsl:b:/q", "wsl:c:/r"])] }
      "/w").2 ["wsl:a:/p", "wsl:b:/q", "wsl:c:/r"] (by decide)
    rw [h]
    decide
  · exact (claim3_workspace_lookup (fun s => s) false
      { version := "1.0",
        environments := [("wsl:a:/p", sampleVenvRecord), ("wsl:c:/r", sampleSystemRecord)],
        workspaceMapping := [("/w", ["wsl:a:/p", "wsl:b:/q", "wsl:c:/r"])] }
      "/x").1 (by decide)

/-- C5: discovery converts each loaded record independently, keeps exactly
the successfully converted ones in order (`filterMap`), so over one
convertible and one unconvertible record it returns exactly the one
descriptor, and a store-level failure yields the empty list. -/
theorem claim5_discover_partial_success
    (createFails : PythonEnvironmentInfo → Bool) :
    (∀ envs, discoverEnvironments createFails (Except.ok envs)
        = envs.filterMap
            (fun p => convertToPythonEnvironment createFails p.2 p.1)) ∧
    (∀ id1 info1 id2 info2 env,
      convertToPythonEnvironment createFails info1 id1 = some env →
      convertToPythonEnvironment createFails info2 id2 = none →
      discoverEnvironments createFails (Except.ok [(id1, info1), (id2, info2)])
        = [env]) ∧
    (∀ msg, discoverEnvironments createFails (Except.error msg) = []) := by
  refine ⟨discoverEnvironments_ok_eq_filterMap createFails, ?_, fun msg => rfl⟩
  intro id1 info1 id2 info2 env h1 h2
  rw [discoverEnvironments_ok_eq_filterMap]
  simp [h1, h2]

/-- Witness for C5: with an api that throws exactly on the record named
`bad`, a two-record document yields one descriptor, and a store failure
yields none. -/
theorem claim5_discover_partial_success_witness :
    discoverEnvironments (fun e => e.name == "bad")
        (Except.ok [("wsl:Ubuntu-22.04:/mnt/c/proj/.venv/bin/python", sampleVenvRecord),
                    ("wsl:bad:/p", { sampleVenvRecord with name := "bad" })])
      = [ { info := envInfoOf sampleVenvRecord
              "wsl:Ubuntu-22.04:/mnt/c/proj/.venv/bin/python" } ] ∧
    discoverEnvironments (fun e => e.name == "bad") (Except.error "load threw") = [] := by
  have h := claim5_discover_partial_success (fun e => e.name == "bad")
  exact ⟨h.2.1 "wsl:Ubuntu-22.04:/mnt/c/proj/.venv/bin/python" sampleVenvRecord
      "wsl:bad:/p" { sampleVenvRecord with name := "bad" }
      { info := envInfoOf sampleVenvRecord
          "wsl:Ubuntu-22.04:/mnt/c/proj/.venv/bin/python" }
      (by decide) (by decide),
    h.2.2 "load threw"⟩

/-- C6: when the persistence file is absent or reading or parsing it fails
(directory error, read error, malformed JSON), every store query returns
its empty fallback: empty mapping, empty list, absent record, `false`. -/
theorem claim6_query_fallbacks (filePath : String) (dirOf : String → String)
    (file : FileContent)
    (h : file = FileContent.missing ∨ file = FileContent.dirError ∨
         file = FileContent.readError ∨ file = FileContent.malformed) :
    getAllEnvironments filePath dirOf none file = [] ∧
    (∀ norm isWin32 workspacePath,
      getWorkspaceEnvironments norm isWin32 filePath dirOf none file workspacePath = []) ∧
    (∀ envId, getEnvironment filePath dirOf none file envId = none) ∧
    (∀ envId, hasEnvironment filePath dirOf none file envId = false) := by
  have hdata : (loadData filePath dirOf none file).data = createEmptyData := by
    rcases h with h | h | h | h <;> subst h <;> rfl
  refine ⟨?_, ?_, ?_, ?_⟩
  · simp [getAllEnvironments, hdata, createEmptyData]
  · intro norm isWin32 workspacePath
    simp [getWorkspaceEnvironments, hdata,
      getWorkspaceEnvironmentsData_eq_filterMap, createEmptyData]
  · intro envId
    simp [getEnvironment, hdata, createEmptyData]
  · intro envId
    simp [hasEnvironment, hdata, createEmptyData]

/-- Witness for C6 at a missing file and a malformed file. -/
theorem claim6_query_fallbacks_witness :
    (getAllEnvironments "wsl-environments.json" (fun s => s) none FileContent.missing = [] ∧
     hasEnvironment "wsl-environments.json" (fun s => s) none FileContent.missing
        "wsl:a:/p" = false) ∧
    (getEnvironment "wsl-environments.json" (fun s => s) none FileContent.malformed
        "wsl:a:/p" = none ∧
     getWorkspaceEnvironments (fun s => s) false "wsl-environments.json" (fun s => s)
        none FileContent.malformed "/w" = []) := by
  have h1 := claim6_query_fallbacks "wsl-environments.json" (fun s => s)
    FileContent.missing (Or.inl rfl)
  have h2 := claim6_query_fallbacks "wsl-environments.json" (fun s => s)
    FileContent.malformed (Or.inr (Or.inr (Or.inr rfl)))
  exact ⟨⟨h1.1, h1.2.2.2 "wsl:a:/p"⟩, ⟨h2.2.2.1 "wsl:a:/p", h2.2.1 (fun s => s) false "/w"⟩⟩

/-- Concrete one-record document used to instantiate the cache theorems. -/
def sampleDocument : WslPersistenceData :=
  { version := "1.0", environments := [("wsl:a:/p", sampleVenvRecord)],
    workspaceMapping := [] }

/-- On an unset cache the load algorithm always runs. -/
theorem loadData_none_didLoad (filePath : String) (dirOf : String → String)
    (file : FileContent) :
    (loadData filePath dirOf none file).didLoad = true := by
  cases file with
  | missing => rfl
  | dirError => rfl
  | readError => rfl
  | malformed => rfl
  | valid d =>
    by_cases h : d.version = CURRENT_VERSION <;> simp [loadData, h]

/-- A load against an unset cache caches `d` only if the file parsed to
`d`, the version matched, and `d` is also the returned document. -/
theorem loadData_none_cached_eq (filePath : String) (dirOf : String → String)
    (file : FileContent) (d : WslPersistenceData)
    (h : (loadData filePath dirOf none file).newCache = some d) :
    file = FileContent.valid d ∧ d.version = CURRENT_VERSION ∧
    (loadData filePath dirOf none file).data = d := by
  cases file with
  | missing => simp [loadData] at h
  | dirError => simp [loadData] at h
  | readError => simp [loadData] at h
  | malformed => simp [loadData] at h
  | valid d1 =>
    by_cases hv : d1.version = CURRENT_VERSION
    · simp [loadData, hv] at h
      subst h
      exact ⟨rfl, hv, by simp [loadData, hv]⟩
    · simp [loadData, hv] at h

/-- C7 fails as stated: with the persistence file absent, a first query
completes a load, yet the next query runs the load algorithm and reads the
filesystem again, without any `clearCache` in between — the load is not
invoked at most once per cache epoch. -/
theorem claim7_counterexample :
    (loadData "wsl-environments.json" (fun s => s) none FileContent.missing).didLoad
      = true ∧
    (loadData "wsl-environments.json" (fun s => s)
        (loadData "wsl-environments.json" (fun s => s) none
          FileContent.missing).newCache
        FileContent.missing).didLoad
      = true ∧
    (loadData "wsl-environments.json" (fun s => s)
        (loadData "wsl-environments.json" (fun s => s) none
          FileContent.missing).newCache
        FileContent.missing).ops
      ≠ [] :=
  ⟨rfl, rfl, by decide⟩

/-- C7 amended: after a query completes a load that cached a document (the
file existed, parsed, and its version matched), every subsequent query
returns that cached document without re-reading the file, until
`clearCache()`; after `clearCache()` the next query runs the load again, so
a change to the file is observable in its result. -/
theorem claim7_cache_epoch (filePath : String) (dirOf : String → String)
    (file : FileContent) (d : WslPersistenceData)
    (h : (loadData filePath dirOf none file).newCache = some d) :
    (loadData filePath dirOf none file).data = d ∧
    (∀ file2,
      (loadData filePath dirOf (some d) file2).didLoad = false ∧
      (loadData filePath dirOf (some d) file2).data = d ∧
      (loadData filePath dirOf (some d) file2).ops = []) ∧
    (∀ file2,
      (loadData filePath dirOf (clearCache (some d)) file2).didLoad = true) ∧
    (∀ d2, d2.version = CURRENT_VERSION →
      (loadData filePath dirOf (clearCache (some d)) (FileContent.valid d2)).data
        = d2) := by
  refine ⟨?_, fun file2 => ⟨rfl, rfl, rfl⟩, fun file2 => ?_, fun d2 h2 => ?_⟩
  · exact (loadData_none_cached_eq filePath dirOf file d h).2.2
  · exact loadData_none_didLoad filePath dirOf file2
  · simp [clearCache, loadData, h2]

/-- Witness for C7 amended: a cached document is returned without loading,
and after `clearCache` a changed file content shows up in the next query. -/
theorem claim7_cache_epoch_witness :
    (loadData "wsl-environments.json" (fun s => s) (some sampleDocument)
        FileContent.missing).didLoad = false ∧
    (loadData "wsl-environments.json" (fun s => s) (some sampleDocument)
        FileContent.missing).data = sampleDocument ∧
    (loadData "wsl-environments.json" (fun s => s) (clearCache (some sampleDocument))
        (FileContent.valid { version := "1.0", environments := [],
                             workspaceMapping := [] })).didLoad = true ∧
    (loadData "wsl-environments.json" (fun s => s) (clearCache (some sampleDocument))
        (FileContent.valid { version := "1.0", environments := [],
                             workspaceMapping := [] })).data
      = { version := "1.0", environments := [], workspaceMapping := [] } := by
  have h := claim7_cache_epoch "wsl-environments.json" (fun s => s)
    (FileContent.valid sampleDocument) sampleDocument (by decide)
  exact ⟨(h.2.1 FileContent.missing).1, (h.2.1 FileContent.missing).2.1,
    h.2.2.1 (FileContent.valid { version := "1.0", environments := [],
                                 workspaceMapping := [] }),
    h.2.2.2 { version := "1.0", environments := [], workspaceMapping := [] } rfl⟩

/-- C8: loading with the persistence file absent returns the empty document
and performs exactly a directory-ensure and an existence check — it never
writes the file, and no load ever performs a file write. -/
theorem claim8_load_frame (filePath : String) (dirOf : String → String) :
    ((loadData filePath dirOf none FileContent.missing).data = createEmptyData ∧
     (loadData filePath dirOf none FileContent.missing).ops
        = [FsOp.ensureDir (dirOf filePath), FsOp.pathExists filePath]) ∧
    (∀ cache file,
      ((loadData filePath dirOf cache file).ops.any FsOp.isFileWrite) = false) := by
  refine ⟨⟨rfl, rfl⟩, ?_⟩
  intro cache file
  cases cache with
  | some d => rfl
  | none =>
    cases file with
    | missing => rfl
    | dirError => rfl
    | readError => rfl
    | malformed => rfl
    | valid d =>
      by_cases h : d.version = CURRENT_VERSION <;>
        simp [loadData, h, FsOp.isFileWrite]

/-- C9: the cache is set by a load exactly when the file existed, parsed,
and carried the supported version — then it holds that document; after any
fallback load the cache stays unset and the next query runs the load
algorithm again. -/
theorem claim9_cache_only_on_success (filePath : String) (dirOf : String → String)
    (file file2 : FileContent) :
    ((loadData filePath dirOf none file).newCache.isSome = true ↔
      ∃ d, file = FileContent.valid d ∧ d.version = CURRENT_VERSION) ∧
    (∀ d, (loadData filePath dirOf none file).newCache = some d →
      file = FileContent.valid d ∧ d.version = CURRENT_VERSION) ∧
    ((loadData filePath dirOf none file).newCache = none →
      (loadData filePath dirOf ((loadData filePath dirOf none file).newCache)
          file2).didLoad = true) := by
  refine ⟨?_, ?_, ?_⟩
  · cases file with
    | missing => simp [loadData]
    | dirError => simp [loadData]
    | readError => simp [loadData]
    | malformed => simp [loadData]
    | valid d =>
      by_cases h : d.version = CURRENT_VERSION <;> simp [loadData, h]
  · intro d hd
    exact ⟨(loadData_none_cached_eq filePath dirOf file d hd).1,
      (loadData_none_cached_eq filePath dirOf file d hd).2.1⟩
  · intro hnone
    rw [hnone]
    exact loadData_none_didLoad filePath dirOf file2

/-- Witness for C9: a load over a missing file leaves the cache unset and
the next query loads again. -/
theorem claim9_cache_only_on_success_witness :
    (loadData "wsl-environments.json" (fun s => s)
        ((loadData "wsl-environments.json" (fun s => s) none
            FileContent.missing).newCache)
        FileContent.readError).didLoad = true := by
  exact (claim9_cache_only_on_success "wsl-environments.json" (fun s => s)
    FileContent.missing FileContent.readError).2.2 rfl

/-- C10: `hasEnvironment` answers `true` exactly when `getEnvironment`
returns a record, and the record returned is the binding stored under that
key in the loaded document. -/
theorem claim10_has_iff_get (filePath : String) (dirOf : String → String)
    (cache : Option WslPersistenceData) (file : FileContent) (envId : String) :
    (hasEnvironment filePath dirOf cache file envId = true ↔
      (getEnvironment filePath dirOf cache file envId).isSome = true) ∧
    (∀ env, getEnvironment filePath dirOf cache file envId = some env →
      (loadData filePath dirOf cache file).data.environments.lookup envId
        = some env ∧
      (envId, env) ∈ (loadData filePath dirOf cache file).data.environments) := by
  constructor
  · rw [hasEnvironment, getEnvironment, lookup_isSome_eq_any]
  · intro env h
    exact ⟨h, mem_of_lookup_eq_some h⟩

/-- Witness for C10 on the concrete document: the key is reported present
and resolves to its stored record. -/
theorem claim10_has_iff_get_witness :
    hasEnvironment "wsl-environments.json" (fun s => s) (some sampleDocument)
        FileContent.missing "wsl:a:/p" = true ∧
    getEnvironment "wsl-environments.json" (fun s => s) (some sampleDocument)
        FileContent.missing "wsl:a:/p" = some sampleVenvRecord ∧
    ("wsl:a:/p", sampleVenvRecord)
      ∈ (loadData "wsl-environments.json" (fun s => s) (some sampleDocument)
          FileContent.missing).data.environments := by
  have h := claim10_has_iff_get "wsl-environments.json" (fun s => s)
    (some sampleDocument) FileContent.missing "wsl:a:/p"
  exact ⟨h.1.mpr (by decide), by decide,
    (h.2 sampleVenvRecord (by decide)).2⟩

end Wsl
